import Mathlib

/-!
Verification of the `win-open` library (Windows path/URL opener).

Shallow embedding of `src/shell.rs`, `src/error.rs` and `src/lib.rs`:

* `WindowsShell`, `try_into_shell` embed the shell enum and its
  case-insensitive string parsing (`TryInto<WindowsShell> for &str`).
* `ErrorKind`, `Error` embed the error taxonomy of `error.rs`; the Rust
  variant `IO` is spelled `Io` here.  `Error.eq` embeds the manual
  `PartialEq for Error` implementation (equality by `kind` only).
* `Command` embeds `std::process::Command` as far as the library
  configures it: program name, ordered argument list (`arg`/`raw_arg`
  both append to the OS argument list), process creation flags, and the
  three stdio redirections.  Paths (`OsStr`) are modelled as `String`.
* Process execution is an external effect.  Synchronous execution is an
  oracle `exec : Command → Except String Nat` giving either the I/O error
  message of a failed launch or the exit code of the launched process
  (Windows `ExitStatus.success()` is `code == 0`).  Detached spawning is
  an oracle `world : Command → Except String Child`, where `Child` also
  records the exit code the child will eventually produce — the library
  never reads it, which is what the detached-mode claims are about.
* The `panic!("No supported shell detected.")` wildcard arms of
  `commands`/`with_command` are embedded as the `none` result of
  `commands_build`/`with_command_build`; they are proved unreachable for
  every `WindowsShell` input.  The `OnceLock` cache of `detect_shell` is
  embedded by explicit state passing of an `Option WindowsShell` cell.
-/

namespace WinOpen

/-- Shell enum from `shell.rs`: PowerShell (`pwsh`), Nushell (`nu`),
Command Prompt (`cmd`). -/
inductive WindowsShell where
  | Powershell
  | Nushell
  | Cmd
deriving DecidableEq

/-- `WindowsShell::as_str`: the executable name of each shell. -/
def WindowsShell.as_str : WindowsShell → String
  | .Powershell => "pwsh"
  | .Nushell => "nu"
  | .Cmd => "cmd"

/-- Error kinds from `error.rs` (Rust names `SHELL_NOT_FOUND`,
`COMMAND_FAILED`, `NO_LAUNCHER`, `IO`; the last is spelled `Io` here). -/
inductive ErrorKind where
  | SHELL_NOT_FOUND
  | COMMAND_FAILED
  | NO_LAUNCHER
  | Io
deriving DecidableEq

/-- The `Error` struct from `error.rs`: a kind plus a free-text message. -/
structure Error where
  kind : ErrorKind
  message : String
deriving DecidableEq

/-- `Error::empty_message`: an error of the given kind with `""` message. -/
def Error.empty_message (kind : ErrorKind) : Error :=
  ⟨kind, ""⟩

/-- `Error::new`: if the message is empty it delegates to
`empty_message`, otherwise stores the message. -/
def Error.new (kind : ErrorKind) (message : String) : Error :=
  if message.isEmpty then Error.empty_message kind
  else ⟨kind, message⟩

/-- The manual `PartialEq for Error` implementation: two errors compare
equal exactly when their kinds do; the message is ignored. -/
def Error.eq (a b : Error) : Bool :=
  a.kind == b.kind

/-- The crate's `Result` alias with `Error` as the failure type. -/
abbrev Result (α : Type) := Except Error α

/-- Rust's `to_ascii_uppercase` on strings: uppercase the ASCII letters,
leave every other character unchanged (`Char.toUpper` is ASCII-only). -/
def to_ascii_uppercase (s : String) : String :=
  String.mk (s.data.map Char.toUpper)

/-- `s` is a case-insensitive variant of `t`: the two agree after
ASCII-uppercasing every character. -/
def is_case_variant (s t : String) : Prop :=
  to_ascii_uppercase s = to_ascii_uppercase t

/-- `TryInto<WindowsShell> for &str` (also `WindowsShell::from_str`,
which delegates to it): match the ASCII-uppercased input against the
known aliases, otherwise a `SHELL_NOT_FOUND` error carrying the input. -/
def try_into_shell (s : String) : Result WindowsShell :=
  let u := to_ascii_uppercase s
  if u = "PWSH" ∨ u = "POWERSHELL" then .ok .Powershell
  else if u = "NU" ∨ u = "NUSHELL" then .ok .Nushell
  else if u = "CMD" ∨ u = "COMMANDPROMPT" then .ok .Cmd
  else .error (Error.new .SHELL_NOT_FOUND s)

/-- A stdio redirection: inherited (the default) or `Stdio::null()`. -/
inductive Stdio where
  | inherit
  | null
deriving DecidableEq

/-- `std::process::Command` as configured by this library: program,
ordered argument list, creation flags, stdio redirections. -/
structure Command where
  program : String
  args : List String
  creation_flags : Nat
  stdin : Stdio
  stdout : Stdio
  stderr : Stdio
deriving DecidableEq

/-- `Command::new`: a command with no arguments and default stdio. -/
def Command.new (program : String) : Command :=
  ⟨program, [], 0, .inherit, .inherit, .inherit⟩

/-- `Command::arg`: append one argument. -/
def Command.arg (cmd : Command) (a : String) : Command :=
  { cmd with args := cmd.args ++ [a] }

/-- `Command::raw_arg` (Windows): append one argument verbatim, without
the standard library's quoting.  All raw arguments this library passes
are already quoted strings, so at the OS level the argument list is the
same as for `arg`. -/
def Command.raw_arg (cmd : Command) (a : String) : Command :=
  { cmd with args := cmd.args ++ [a] }

/-- The `CREATE_NO_WINDOW` process creation flag. -/
def CREATE_NO_WINDOW : Nat := 0x08000000

/-- The `CREATE_NEW_PROCESS_GROUP` process creation flag. -/
def CREATE_NEW_PROCESS_GROUP : Nat := 0x00000200

/-- `wrap_in_quotes`: build `"` + path + `"` by successive pushes onto an
`OsString` (modelled as `String`). -/
def wrap_in_quotes (path : String) : String :=
  ("\"" ++ path) ++ "\""

/-- `wrap_in_quotes_string`: same wrapping via `format!` on the lossy
UTF-8 decoding of the path (identity on our `String` model). -/
def wrap_in_quotes_string (path : String) : String :=
  "\"" ++ path ++ "\""

/-- The match body of `commands`, keyed by `detect_shell().as_str()`.
The wildcard arm is `panic!("No supported shell detected.")` in the
source; it is embedded as `none` and proved unreachable. -/
def commands_build (shell : String) (path : String) : Option Command :=
  let cmd := Command.new shell
  if shell = "pwsh" then
    some { (((cmd.arg "-NoProfile").arg "-Command").arg
        "Start-Process").arg (wrap_in_quotes path) with
      creation_flags := CREATE_NO_WINDOW }
  else if shell = "nu" then
    some { (cmd.arg "-c").arg ("open " ++ wrap_in_quotes_string path) with
      creation_flags := CREATE_NO_WINDOW }
  else if shell = "cmd" then
    some { (((cmd.arg "/c").arg "start").raw_arg "\"\"").raw_arg
        (wrap_in_quotes path) with
      creation_flags := CREATE_NO_WINDOW }
  else none

/-- `commands`: one launcher command for the detected shell, as a
vector.  The panic arm (here `none`) yields the empty vector; it is
proved unreachable for every `WindowsShell`. -/
def commands (shell : WindowsShell) (path : String) : List Command :=
  match commands_build shell.as_str path with
  | some cmd => [cmd]
  | none => []

/-- The match body of `with_command`, keyed by
`detect_shell().as_str()`; wildcard arm (a panic in the source)
embedded as `none`. -/
def with_command_build (shell : String) (path : String) (app : String) :
    Option Command :=
  let cmd := Command.new shell
  if shell = "pwsh" then
    some { ((((cmd.arg "-NoProfile").arg "-Command").arg
        "Start-Process").arg (wrap_in_quotes path)).arg
        (wrap_in_quotes app) with
      creation_flags := CREATE_NO_WINDOW }
  else if shell = "nu" then
    some { (cmd.arg "-c").arg
        ("open " ++ wrap_in_quotes_string path ++ " " ++
          wrap_in_quotes_string app) with
      creation_flags := CREATE_NO_WINDOW }
  else if shell = "cmd" then
    some { ((((cmd.arg "/c").arg "start").raw_arg "\"\"").raw_arg
        (wrap_in_quotes path)).raw_arg (wrap_in_quotes app) with
      creation_flags := CREATE_NO_WINDOW }
  else none

/-- `with_command`: the single command opening `path` with `app` under
the detected shell.  The `none` (panic) branch is unreachable for every
`WindowsShell` (proved below); a junk default stands in for it. -/
def with_command (shell : WindowsShell) (path : String) (app : String) :
    Command :=
  (with_command_build shell.as_str path app).getD (Command.new shell.as_str)

/-- `CommandExt::status_without_output` redirects all three stdio
streams to null before waiting on the process status. -/
def set_null (cmd : Command) : Command :=
  { cmd with stdin := Stdio.null, stdout := Stdio.null, stderr := Stdio.null }

/-- Synchronous execution oracle: running a command either fails at the
OS level with an I/O error message, or launches and yields an exit
code.  `status_without_output` nulls stdio, then runs the command. -/
def status_without_output (exec : Command → Except String Nat)
    (cmd : Command) : Except String Nat :=
  exec (set_null cmd)

/-- Debug rendering of a command, standing in for Rust's
`format!("{cmd:?} (status)")` in the `COMMAND_FAILED` message; the
message text is informational only (`Error` equality ignores it). -/
def command_debug (cmd : Command) : String :=
  cmd.program ++ " " ++ String.intercalate " " cmd.args

/-- `IntoResult for io::Result<ExitStatus>`: success status maps to
`Ok(())`, a non-success status to a `COMMAND_FAILED` error carrying the
command and status, an I/O error to its `Io` conversion
(`From<std::io::Error> for Error`).  On Windows `status.success()` is
`code == 0`. -/
def into_result (res : Except String Nat) (cmd : Command) : Result Unit :=
  match res with
  | .ok status =>
      if status == 0 then .ok ()
      else .error (Error.new .COMMAND_FAILED
        (command_debug cmd ++ " (exit code: " ++ toString status ++ ")"))
  | .error err => .error (Error.new .Io err)

/-- The candidate loop of `that`: run each command with nulled stdio;
a launched process returns immediately through `into_result` (whether
it succeeded or not); an I/O launch failure records the error and tries
the next candidate; an exhausted list reports the last recorded I/O
error, or `NO_LAUNCHER` when none was recorded. -/
def that_loop (exec : Command → Except String Nat) :
    List Command → Option String → Result Unit
  | [], last_err =>
      .error (match last_err with
        | none => Error.new .NO_LAUNCHER ""
        | some err => Error.new .Io err)
  | cmd :: rest, last_err =>
      match status_without_output exec cmd with
      | .ok status => into_result (.ok status) (set_null cmd)
      | .error err =>
          let _ := last_err
          that_loop exec rest (some err)

/-- `that`: open `path` with the default application by trying the
commands for the detected shell. -/
def that (shell : WindowsShell) (exec : Command → Except String Nat)
    (path : String) : Result Unit :=
  that_loop exec (commands shell path) none

/-- `with`: open `path` with application `app` via the single command
from `with_command` (`with` is a Lean keyword, hence `with_app`). -/
def with_app (shell : WindowsShell) (exec : Command → Except String Nat)
    (path : String) (app : String) : Result Unit :=
  let cmd := with_command shell path app
  into_result (status_without_output exec cmd) (set_null cmd)

/-- A spawned child process; the library never waits on it, so its
eventual exit code (recorded here) is never read. -/
structure Child where
  eventual_exit_code : Nat
deriving DecidableEq

/-- `CommandExt::spawn_detached`: null the stdio streams, overwrite the
creation flags with `CREATE_NEW_PROCESS_GROUP | CREATE_NO_WINDOW`, then
spawn, discarding the child handle (`.map(|_| ())`). -/
def detached_cfg (cmd : Command) : Command :=
  { set_null cmd with
    creation_flags := CREATE_NEW_PROCESS_GROUP ||| CREATE_NO_WINDOW }

/-- Spawn oracle application for `spawn_detached`: the result is the
spawn outcome with the child handle dropped. -/
def spawn_detached (world : Command → Except String Child)
    (cmd : Command) : Except String Unit :=
  (world (detached_cfg cmd)).map (fun _ => ())

/-- The candidate loop of `that_detached` (non-`shellexecute` path):
a successful spawn returns `Ok(())` immediately; a failed spawn records
the error and tries the next candidate; an exhausted list reports the
last I/O error, or `NO_LAUNCHER` when none was recorded. -/
def that_detached_loop (world : Command → Except String Child) :
    List Command → Option String → Result Unit
  | [], last_err =>
      .error (match last_err with
        | none => Error.new .NO_LAUNCHER ""
        | some err => Error.new .Io err)
  | cmd :: rest, last_err =>
      match spawn_detached world cmd with
      | .ok _ => .ok ()
      | .error err =>
          let _ := last_err
          that_detached_loop world rest (some err)

/-- `that_detached` (without the `shellexecute` feature): spawn the
detected shell's commands detached. -/
def that_detached (shell : WindowsShell)
    (world : Command → Except String Child) (path : String) : Result Unit :=
  that_detached_loop world (commands shell path) none

/-- `with_detached` (without the `shellexecute` feature): spawn the
single `with_command` invocation detached; on spawn failure the
recorded error is reported via the same `map_or_else` as `that`
(`NO_LAUNCHER` branch dead, since an error was just recorded). -/
def with_detached (shell : WindowsShell)
    (world : Command → Except String Child) (path : String)
    (app : String) : Result Unit :=
  match spawn_detached world (with_command shell path app) with
  | .ok _ => .ok ()
  | .error err =>
      let last_err : Option String := some err
      .error (match last_err with
        | none => Error.new .NO_LAUNCHER ""
        | some e => Error.new .Io e)

/-- The PowerShell availability probe of `get_shell`:
`pwsh -Command $PSVersionTable.PSVersion`. -/
def pwsh_probe : Command :=
  ((Command.new "pwsh").arg "-Command").arg "$PSVersionTable.PSVersion"

/-- The Nushell availability probe of `get_shell`: `nu -c version`. -/
def nu_probe : Command :=
  ((Command.new "nu").arg "-c").arg "version"

/-- `map_or(false, |status| status.success())` applied to a probe
outcome: true only for a launch that exited with code 0. -/
def probe_success (res : Except String Nat) : Bool :=
  match res with
  | .ok code => code == 0
  | .error _ => false

/-- `get_shell`: probe PowerShell, then Nushell, then fall back to
Command Prompt unconditionally; each winner is returned through the
string parser (`"pwsh".try_into()` and so on). -/
def get_shell (exec : Command → Except String Nat) : Result WindowsShell :=
  if probe_success (status_without_output exec pwsh_probe) then
    try_into_shell "pwsh"
  else if probe_success (status_without_output exec nu_probe) then
    try_into_shell "nu"
  else
    try_into_shell "cmd"

/-- `detect_shell`: the `OnceLock` cache passed as explicit state.  A
populated cell is returned untouched without probing; an empty cell is
filled from `get_shell`.  The `Err` arm panics in the source and is
embedded as `none` (unreachable, since `get_shell` always succeeds). -/
def detect_shell (exec : Command → Except String Nat)
    (cache : Option WindowsShell) :
    Option (WindowsShell × Option WindowsShell) :=
  match cache with
  | some shell => some (shell, some shell)
  | none =>
      match get_shell exec with
      | .ok shell => some (shell, some shell)
      | .error _ => none

/-- Helper: `Error::new` always stores the requested kind, whether or
not the message is empty. -/
theorem Error.new_kind (kind : ErrorKind) (message : String) :
    (Error.new kind message).kind = kind := by
  unfold Error.new Error.empty_message
  split <;> rfl

/-- Helper: `get_shell` always succeeds — every branch returns a parse
of a valid alias. -/
theorem get_shell_ok (exec : Command → Except String Nat) :
    ∃ shell, get_shell exec = .ok shell := by
  unfold get_shell
  split
  · exact ⟨.Powershell, rfl⟩
  · split
    · exact ⟨.Nushell, rfl⟩
    · exact ⟨.Cmd, rfl⟩

/-- C9: equality of two `Error` values is determined by their kind
alone — `Error.eq` returns true exactly when the two `ErrorKind`s are
equal, regardless of the message strings. -/
theorem error_eq_iff_kind_eq :
    ∀ a b : Error, Error.eq a b = true ↔ a.kind = b.kind := by
  intro a b
  simp [Error.eq]

/-- C10: `as_str` of every shell variant is one of "pwsh", "nu", "cmd",
so the wildcard panic arms of `commands` and `with_command` (embedded
as the `none` branches of `commands_build` / `with_command_build`) are
unreachable for every input path and application name. -/
theorem wildcard_arms_unreachable :
    ∀ (shell : WindowsShell) (path app : String),
      (shell.as_str = "pwsh" ∨ shell.as_str = "nu" ∨ shell.as_str = "cmd") ∧
      (commands_build shell.as_str path).isSome = true ∧
      (with_command_build shell.as_str path app).isSome = true := by
  intro shell path app
  cases shell <;>
    simp [WindowsShell.as_str, commands_build, with_command_build]

/-- C6: every built invocation carries the path wrapped in one literal
double-quote pair: the PowerShell and Command Prompt argument lists end
in `wrap_in_quotes path` (which is `"` ++ path ++ `"`), the Nushell
inline script embeds `wrap_in_quotes_string path`, and at the concrete
path `C:\My Folder\file.txt` the quoted argument is exactly
`"C:\My Folder\file.txt"` with the quotes included. -/
theorem quoting_consistent :
    (∀ path, wrap_in_quotes path = "\"" ++ path ++ "\"" ∧
      wrap_in_quotes_string path = "\"" ++ path ++ "\"") ∧
    (∀ path, (commands .Powershell path).map Command.args =
      [["-NoProfile", "-Command", "Start-Process", wrap_in_quotes path]]) ∧
    (∀ path, (commands .Nushell path).map Command.args =
      [["-c", "open " ++ wrap_in_quotes_string path]]) ∧
    (∀ path, (commands .Cmd path).map Command.args =
      [["/c", "start", "\"\"", wrap_in_quotes path]]) ∧
    wrap_in_quotes "C:\\My Folder\\file.txt" = "\"C:\\My Folder\\file.txt\"" := by
  refine ⟨fun path => ⟨?_, rfl⟩, fun path => rfl, fun path => rfl,
    fun path => rfl, rfl⟩
  simp [wrap_in_quotes, String.append_assoc]

/-- C7: the Command Prompt invocations of both `commands` and
`with_command` place the empty placeholder argument `""` immediately
after the `start` built-in and immediately before the quoted path, for
every path and application name. -/
theorem cmd_start_placeholder :
    ∀ path app : String,
      (commands .Cmd path).map Command.args =
        [["/c", "start", "\"\"", wrap_in_quotes path]] ∧
      (with_command .Cmd path app).args =
        ["/c", "start", "\"\"", wrap_in_quotes path, wrap_in_quotes app] := by
  intro path app
  exact ⟨rfl, rfl⟩

/-- Helper: ASCII-uppercasing of the six recognized aliases. -/
theorem upper_aliases :
    to_ascii_uppercase "pwsh" = "PWSH" ∧
    to_ascii_uppercase "powershell" = "POWERSHELL" ∧
    to_ascii_uppercase "nu" = "NU" ∧
    to_ascii_uppercase "nushell" = "NUSHELL" ∧
    to_ascii_uppercase "cmd" = "CMD" ∧
    to_ascii_uppercase "commandprompt" = "COMMANDPROMPT" := by
  refine ⟨?_, ?_, ?_, ?_, ?_, ?_⟩ <;> decide

/-- C2: every case-insensitive variant of "pwsh"/"powershell" parses to
`Powershell`, of "nu"/"nushell" to `Nushell`, of "cmd"/"commandprompt"
to `Cmd`; every other string parses to an error of kind
`SHELL_NOT_FOUND`. -/
theorem shell_parse_aliases :
    ∀ s : String,
      ((is_case_variant s "pwsh" ∨ is_case_variant s "powershell") →
        try_into_shell s = .ok .Powershell) ∧
      ((is_case_variant s "nu" ∨ is_case_variant s "nushell") →
        try_into_shell s = .ok .Nushell) ∧
      ((is_case_variant s "cmd" ∨ is_case_variant s "commandprompt") →
        try_into_shell s = .ok .Cmd) ∧
      (¬(is_case_variant s "pwsh" ∨ is_case_variant s "powershell" ∨
          is_case_variant s "nu" ∨ is_case_variant s "nushell" ∨
          is_case_variant s "cmd" ∨ is_case_variant s "commandprompt") →
        ∃ e, try_into_shell s = .error e ∧ e.kind = .SHELL_NOT_FOUND) := by
  intro s
  obtain ⟨u1, u2, u3, u4, u5, u6⟩ := upper_aliases
  simp only [is_case_variant, u1, u2, u3, u4, u5, u6]
  refine ⟨?_, ?_, ?_, ?_⟩
  · rintro (h | h) <;> simp [try_into_shell, h]
  · rintro (h | h) <;> simp [try_into_shell, h]
  · rintro (h | h) <;> simp [try_into_shell, h]
  · intro h
    push_neg at h
    obtain ⟨h1, h2, h3, h4, h5, h6⟩ := h
    refine ⟨Error.new .SHELL_NOT_FOUND s, ?_, Error.new_kind _ _⟩
    simp [try_into_shell, h1, h2, h3, h4, h5, h6]

/-- C2 witness: the mixed-case alias "PwSh" parses to `Powershell`. -/
theorem shell_parse_aliases_witness :
    try_into_shell "PwSh" = .ok .Powershell :=
  (shell_parse_aliases "PwSh").1 (Or.inl rfl)

/-- C1: in `that`'s candidate loop, an I/O launch failure records the
error and advances to the next candidate; a launched process that
exits non-zero returns a `COMMAND_FAILED` error immediately, the
remaining candidates untried (the result is `into_result` of that
status alone); a launched process that exits zero returns `Ok`; an
exhausted list yields the `Io` wrap of the last recorded error, and
`NO_LAUNCHER` only when no error was recorded; `that` itself runs this
loop over `commands` with no recorded error. -/
theorem that_error_policy :
    ∀ (exec : Command → Except String Nat) (cmd : Command)
      (rest : List Command) (last_err : Option String),
      (∀ err, exec (set_null cmd) = .error err →
        that_loop exec (cmd :: rest) last_err =
          that_loop exec rest (some err)) ∧
      (∀ status, exec (set_null cmd) = .ok status →
        that_loop exec (cmd :: rest) last_err =
          into_result (.ok status) (set_null cmd)) ∧
      (∀ status, exec (set_null cmd) = .ok status → status ≠ 0 →
        ∃ e, that_loop exec (cmd :: rest) last_err = .error e ∧
          e.kind = .COMMAND_FAILED) ∧
      (∀ err, that_loop exec [] (some err) = .error (Error.new .Io err)) ∧
      (that_loop exec [] none = .error (Error.new .NO_LAUNCHER "")) ∧
      (∀ shell path, that shell exec path =
        that_loop exec (commands shell path) none) := by
  intro exec cmd rest last_err
  refine ⟨?_, ?_, ?_, fun err => rfl, rfl, fun shell path => rfl⟩
  · intro err h
    simp [that_loop, status_without_output, h]
  · intro status h
    simp [that_loop, status_without_output, h]
  · intro status h hne
    refine ⟨Error.new .COMMAND_FAILED
      (command_debug (set_null cmd) ++ " (exit code: " ++
        toString status ++ ")"), ?_, Error.new_kind _ _⟩
    simp [that_loop, status_without_output, h, into_result, hne]

/-- C1 witness: with a single candidate whose launch fails with an I/O
error, the loop advances to the (empty) remainder carrying that error. -/
theorem that_error_policy_witness :
    that_loop (fun _ => Except.error "launch failed")
        [Command.new "cmd"] none =
      that_loop (fun _ => Except.error "launch failed") [] (some "launch failed") :=
  (that_error_policy (fun _ => Except.error "launch failed")
    (Command.new "cmd") [] none).1 "launch failed" rfl

/-- C3: `get_shell` returns `Powershell` when the PowerShell probe
succeeds, else `Nushell` when the Nushell probe succeeds, else `Cmd`
unconditionally; it never returns an error, and its result depends only
on the outcomes of the PowerShell and Nushell probes — Command Prompt
is never probed. -/
theorem get_shell_resolution_order :
    ∀ exec : Command → Except String Nat,
      (probe_success (status_without_output exec pwsh_probe) = true →
        get_shell exec = .ok .Powershell) ∧
      (probe_success (status_without_output exec pwsh_probe) = false →
        probe_success (status_without_output exec nu_probe) = true →
        get_shell exec = .ok .Nushell) ∧
      (probe_success (status_without_output exec pwsh_probe) = false →
        probe_success (status_without_output exec nu_probe) = false →
        get_shell exec = .ok .Cmd) ∧
      (∃ shell, get_shell exec = .ok shell) ∧
      (∀ exec2 : Command → Except String Nat,
        exec2 (set_null pwsh_probe) = exec (set_null pwsh_probe) →
        exec2 (set_null nu_probe) = exec (set_null nu_probe) →
        get_shell exec2 = get_shell exec) := by
  intro exec
  refine ⟨?_, ?_, ?_, get_shell_ok exec, ?_⟩
  · intro h
    simp [get_shell, h]
    rfl
  · intro h1 h2
    simp [get_shell, h1, h2]
    rfl
  · intro h1 h2
    simp [get_shell, h1, h2]
    rfl
  · intro exec2 h1 h2
    simp [get_shell, status_without_output, h1, h2]

/-- C3 witness: an execution oracle under which every process exits 0
resolves to PowerShell. -/
theorem get_shell_resolution_order_witness :
    get_shell (fun _ => Except.ok 0) = .ok .Powershell :=
  (get_shell_resolution_order (fun _ => Except.ok 0)).1 rfl

/-- C4: `with` attempts exactly the one invocation `with_command`
builds (its result is `into_result` of that single execution, and it
depends on the oracle only at that command); an I/O failure surfaces as
its `Io` wrap, a non-zero exit as `COMMAND_FAILED`, a zero exit as
`Ok`; the result is never a `NO_LAUNCHER` error. -/
theorem with_single_invocation :
    ∀ (shell : WindowsShell) (exec : Command → Except String Nat)
      (path app : String),
      (with_app shell exec path app =
        into_result (exec (set_null (with_command shell path app)))
          (set_null (with_command shell path app))) ∧
      (∀ err, exec (set_null (with_command shell path app)) = .error err →
        with_app shell exec path app = .error (Error.new .Io err)) ∧
      (∀ status, exec (set_null (with_command shell path app)) = .ok status →
        status ≠ 0 →
        ∃ e, with_app shell exec path app = .error e ∧
          e.kind = .COMMAND_FAILED) ∧
      (exec (set_null (with_command shell path app)) = .ok 0 →
        with_app shell exec path app = .ok ()) ∧
      (∀ e, with_app shell exec path app = .error e →
        e.kind ≠ .NO_LAUNCHER) ∧
      (∀ exec2 : Command → Except String Nat,
        exec2 (set_null (with_command shell path app)) =
          exec (set_null (with_command shell path app)) →
        with_app shell exec2 path app = with_app shell exec path app) := by
  intro shell exec path app
  refine ⟨rfl, ?_, ?_, ?_, ?_, ?_⟩
  · intro err h
    simp [with_app, status_without_output, h, into_result]
  · intro status h hne
    refine ⟨Error.new .COMMAND_FAILED
      (command_debug (set_null (with_command shell path app)) ++
        " (exit code: " ++ toString status ++ ")"), ?_, Error.new_kind _ _⟩
    simp [with_app, status_without_output, h, into_result, hne]
  · intro h
    simp [with_app, status_without_output, h, into_result]
  · intro e he
    rcases hx : exec (set_null (with_command shell path app)) with err | status
    · simp [with_app, status_without_output, hx, into_result] at he
      rw [← he, Error.new_kind]
      simp
    · by_cases hz : status = 0
      · subst hz
        simp [with_app, status_without_output, hx, into_result] at he
      · simp [with_app, status_without_output, hx, into_result, hz] at he
        rw [← he, Error.new_kind]
        simp
  · intro exec2 h
    simp [with_app, status_without_output, h]

/-- C4 witness: under an oracle whose single invocation exits 0,
`with` succeeds. -/
theorem with_single_invocation_witness :
    with_app .Cmd (fun _ => Except.ok 0) "http://rust-lang.org" "firefox" =
      .ok () :=
  (with_single_invocation .Cmd (fun _ => Except.ok 0)
    "http://rust-lang.org" "firefox").2.2.2.1 rfl

/-- C5: detached success is exactly spawn success.  With the single
candidate `commands` yields, `that_detached` returns `Ok` whenever the
spawn returns any child — whatever exit code that child will later
produce — and returns the `Io` wrap of the spawn error otherwise;
`with_detached` behaves the same on its single `with_command`
invocation.  Neither result mentions a child exit status. -/
theorem detached_success_iff_spawn :
    ∀ (shell : WindowsShell) (world : Command → Except String Child)
      (path app : String) (c : Command),
      commands shell path = [c] →
      ((∀ child, world (detached_cfg c) = .ok child →
        that_detached shell world path = .ok ()) ∧
       (∀ err, world (detached_cfg c) = .error err →
        that_detached shell world path = .error (Error.new .Io err)) ∧
       (that_detached shell world path = .ok () ↔
        (world (detached_cfg c)).isOk = true) ∧
       (∀ child, world (detached_cfg (with_command shell path app)) =
          .ok child →
        with_detached shell world path app = .ok ()) ∧
       (∀ err, world (detached_cfg (with_command shell path app)) =
          .error err →
        with_detached shell world path app = .error (Error.new .Io err)) ∧
       (with_detached shell world path app = .ok () ↔
        (world (detached_cfg (with_command shell path app))).isOk = true)) := by
  intro shell world path app c hc
  unfold that_detached
  rw [hc]
  refine ⟨?_, ?_, ?_, ?_, ?_, ?_⟩
  · intro child h
    simp [that_detached_loop, spawn_detached, h, Except.map]
  · intro err h
    simp [that_detached_loop, spawn_detached, h, Except.map]
  · rcases h : world (detached_cfg c) with err | child <;>
      simp [that_detached_loop, spawn_detached, h, Except.map, Except.isOk, Except.toBool]
  · intro child h
    simp [with_detached, spawn_detached, h, Except.map]
  · intro err h
    simp [with_detached, spawn_detached, h, Except.map]
  · rcases h : world (detached_cfg (with_command shell path app)) with
      err | child <;>
      simp [with_detached, spawn_detached, h, Except.map, Except.isOk, Except.toBool]

/-- C5 witness: a spawn that succeeds with a child that will later exit
with failing code 1 still makes `that_detached` return `Ok`. -/
theorem detached_success_iff_spawn_witness :
    that_detached .Cmd (fun _ => Except.ok ⟨1⟩) "p" = .ok () :=
  (detached_success_iff_spawn .Cmd (fun _ => Except.ok ⟨1⟩) "p" "a"
    ⟨"cmd", ["/c", "start", "\"\"", "\"p\""], CREATE_NO_WINDOW,
      .inherit, .inherit, .inherit⟩ rfl).1 ⟨1⟩ rfl

/-- C8: `detect_shell` with a populated cache returns the cached
variant unchanged for every oracle (no re-probing); a first call that
resolves some variant stores exactly that variant, and every later call
— under any other oracle, i.e. regardless of environment changes —
returns the identical variant with the cache unchanged. -/
theorem detect_shell_idempotent :
    ∀ (exec exec2 : Command → Except String Nat) (shell : WindowsShell)
      (cache : Option WindowsShell),
      (detect_shell exec (some shell) = some (shell, some shell)) ∧
      (detect_shell exec none = some (shell, cache) →
        cache = some shell ∧
        detect_shell exec2 cache = some (shell, cache)) ∧
      (∃ shell0, detect_shell exec none = some (shell0, some shell0)) := by
  intro exec exec2 shell cache
  refine ⟨rfl, ?_, ?_⟩
  · intro h
    obtain ⟨shell0, hs⟩ := get_shell_ok exec
    simp [detect_shell, hs] at h
    obtain ⟨h1, h2⟩ := h
    subst h1
    subst h2
    exact ⟨rfl, rfl⟩
  · obtain ⟨shell0, hs⟩ := get_shell_ok exec
    exact ⟨shell0, by simp [detect_shell, hs]⟩

/-- C8 witness: after a first call resolves PowerShell, a second call
under a different (always-failing) oracle still returns PowerShell from
the cache. -/
theorem detect_shell_idempotent_witness :
    detect_shell (fun _ => Except.error "changed environment")
        (some WindowsShell.Powershell) =
      some (.Powershell, some .Powershell) :=
  ((detect_shell_idempotent (fun _ => Except.ok 0)
    (fun _ => Except.error "changed environment") .Powershell
    (some .Powershell)).2.1 rfl).2

end WinOpen
